import Mathlib

/-!
Verification of the UniFi IP-reservation importer (`unifi.py`).

The script is shallowly embedded: Python strings are Lean `String`s
(operated on through their character lists), the CSV row loop becomes a
fold over a list of rows, and every external effect (HTTP calls, the CSV
file, the credentials module) is an explicit parameter.  A call of the
Python `requests` API that may raise `RequestException` is modelled as an
`Except Unit` result supplied by the environment.
-/

set_option autoImplicit false

namespace Unifi

/-! ## Python string primitives -/

/-- The characters removed by Python's `str.strip()` (ASCII whitespace). -/
def isPySpace (c : Char) : Bool :=
  c == ' ' || c == '\t' || c == '\n' || c == '\x0d' || c == '\x0b' || c == '\x0c'

/-- `str.strip()` on a character list: drop whitespace from both ends. -/
def pyStripList (l : List Char) : List Char :=
  ((l.dropWhile isPySpace).reverse.dropWhile isPySpace).reverse

/-- `str.strip()` on a `String`. -/
def pyStrip (s : String) : String :=
  ⟨pyStripList s.data⟩

/-- `str.replace(old, new)` for one-character `old`/`new`, as used by
`raw.replace('-', ':').replace('.', ':')` in the script: a character map. -/
def replaceChar (a b : Char) (s : String) : String :=
  ⟨s.data.map fun c => if c == a then b else c⟩

/-- `str.upper()` (the script only feeds it ASCII). -/
def pyUpper (s : String) : String :=
  ⟨s.data.map Char.toUpper⟩

/-- MAC normalization from the row loop:
`row["MAC"].strip().replace('-', ':').replace('.', ':').upper()`. -/
def normalizeMac (s : String) : String :=
  pyUpper (replaceChar '.' ':' (replaceChar '-' ':' (pyStrip s)))

/-! ## Python `int()` on decimal string literals -/

/-- Numeric value of a list of ASCII digits. -/
def digitsToNat (l : List Char) : Nat :=
  l.foldl (fun a c => 10 * a + (c.toNat - 48)) 0

/-- Digit-group validity for Python `int()`: nonempty, ASCII digits with
optional single underscores strictly between digits. -/
def validPyDigits (l : List Char) : Bool :=
  !l.isEmpty &&
  l.all (fun c => c.isDigit || c == '_') &&
  l.head? != some '_' &&
  l.getLast? != some '_' &&
  (l.zip l.tail).all (fun p => !(p.1 == '_' && p.2 == '_'))

/-- Modelled from `int(...)` on a stripped character list: optional sign,
then digits (underscore separators allowed). -/
def parsePyIntCore : List Char → Option Int
  | '+' :: rest =>
      if validPyDigits rest then some (Int.ofNat (digitsToNat (rest.filter (· != '_')))) else none
  | '-' :: rest =>
      if validPyDigits rest then some (-(Int.ofNat (digitsToNat (rest.filter (· != '_'))))) else none
  | l =>
      if validPyDigits l then some (Int.ofNat (digitsToNat (l.filter (· != '_')))) else none

/-- Python `int(s)` for decimal string input: strips whitespace, then parses a
signed decimal literal; `none` models the raised `ValueError`. -/
def parsePyInt (s : String) : Option Int :=
  parsePyIntCore (pyStripList s.data)

/-! ## `ipaddress.ip_address` validity

The script only uses `ipaddress.ip_address(ip_address)` for its
success/failure, so we embed a Boolean validity test following CPython's
`IPv4Address._parse_octet` / `IPv6Address._ip_int_from_string`. -/

/-- One dotted-quad octet: nonempty, at most 3 ASCII digits, no leading
zero, value at most 255. -/
def validOctet (l : List Char) : Bool :=
  !l.isEmpty &&
  l.all Char.isDigit &&
  decide (l.length ≤ 3) &&
  (decide (l.length = 1) || l.head? != some '0') &&
  decide (digitsToNat l ≤ 255)

/-- IPv4 literal: exactly four valid octets separated by dots. -/
def isValidIPv4 (l : List Char) : Bool :=
  let parts := l.splitOn '.'
  decide (parts.length = 4) && parts.all validOctet

/-- One IPv6 hextet: one to four hexadecimal digits. -/
def validHextet (l : List Char) : Bool :=
  !l.isEmpty && decide (l.length ≤ 4) && l.all (fun c =>
    c.isDigit || ('a' ≤ c && c ≤ 'f') || ('A' ≤ c && c ≤ 'F'))

/-- Group-structure check of an IPv6 literal after colon-splitting (and
after any embedded IPv4 tail was replaced by two dummy hextets): at most
nine groups, at most one interior empty group acting as the `::` gap, the
gap covering at least one hextet, and every kept group a valid hextet. -/
def ipv6CheckParts (parts : List (List Char)) : Bool :=
  if decide (9 < parts.length) then false else
  let n := parts.length
  let interior := (parts.drop 1).dropLast
  let emptyCount := interior.countP (·.isEmpty)
  if decide (2 ≤ emptyCount) then false
  else if decide (emptyCount = 1) then
    let i := 1 + interior.findIdx (·.isEmpty)
    let headEmpty := parts.head? == some []
    let lastEmpty := parts.getLast? == some []
    (if headEmpty then decide (i = 1) else true) &&
    (if lastEmpty then decide (i = n - 2) else true) &&
    (let hi := if headEmpty then 0 else i
     let lo := if lastEmpty then 0 else n - 1 - i
     decide (hi + lo ≤ 7) &&
     (parts.take hi).all validHextet &&
     (parts.drop (n - lo)).all validHextet)
  else
    decide (n = 8) && parts.head? != some [] && parts.getLast? != some [] &&
    parts.all validHextet

/-- IPv6 literal without a zone suffix: split on colons, require at least
three groups, convert an embedded IPv4 tail, then check group structure. -/
def isValidIPv6NoScope (l : List Char) : Bool :=
  if l.isEmpty then false else
  let parts := l.splitOn ':'
  if decide (parts.length < 3) then false else
  match parts.getLast? with
  | none => false
  | some last =>
    if last.contains '.' then
      if isValidIPv4 last then ipv6CheckParts (parts.dropLast ++ [['0'], ['0']])
      else false
    else ipv6CheckParts parts

/-- IPv6 literal, allowing a `%zone` suffix: the zone must be nonempty and
must not itself contain `%`. -/
def isValidIPv6 (l : List Char) : Bool :=
  match l.splitOn '%' with
  | [addr] => isValidIPv6NoScope addr
  | [addr, scope] => !scope.isEmpty && isValidIPv6NoScope addr
  | _ => false

/-- `ipaddress.ip_address(s)` succeeds iff `s` is a valid IPv4 or IPv6
address literal. -/
def isValidIP (s : String) : Bool :=
  isValidIPv4 s.data || isValidIPv6 s.data

/-! ## VLAN resolver (step 3 of `main`) -/

/-- One object of the controller's `networkconf` response, with the fields
the script reads.  `vlan` holds the JSON value already coerced to an
integer (the script applies `int(...)` to it); `none` models an absent
key, matching the `'vlan' in net` / `'purpose' in net` probes. -/
structure NetworkObj where
  purpose : Option String
  vlan : Option Int
  _id : String
  ip_subnet : Option String
deriving DecidableEq

/-- The guard of the special default-network branch:
`'purpose' in net and net['purpose'] == 'corporate' and ('vlan' not in net or net.get('vlan') == 1)`. -/
def corpDefault (net : NetworkObj) : Bool :=
  net.purpose == some "corporate" && (net.vlan == none || net.vlan == some 1)

/-- The two dictionaries `vlan_map` and `subnet_map` built by the loop.
They are association lists where the head is the most recent insertion, so
`mapGet` (first match) has Python-dict lookup semantics. -/
structure VlanMaps where
  vlan_map : List (Int × String)
  subnet_map : List (Int × String)
deriving DecidableEq

/-- `dict.get(k)`: the most recent binding of `k`, if any. -/
def mapGet (m : List (Int × String)) (k : Int) : Option String :=
  (m.find? fun p => p.1 == k).map Prod.snd

/-- The body of `for net in network_data:` — one network object's
contribution to `vlan_map` and `subnet_map`. -/
def resolveStep (ms : VlanMaps) (net : NetworkObj) : VlanMaps :=
  if corpDefault net then
    ⟨(1, net._id) :: ms.vlan_map, (1, net.ip_subnet.getD "") :: ms.subnet_map⟩
  else
    match net.vlan with
    | some v => ⟨(v, net._id) :: ms.vlan_map, (v, net.ip_subnet.getD "") :: ms.subnet_map⟩
    | none => ms

/-- The whole resolver loop over `network_data` in list order. -/
def buildVlanMaps (nets : List NetworkObj) : VlanMaps :=
  (nets.foldl resolveStep ⟨[], []⟩ : VlanMaps)

/-- Spec-side key function: the VLAN number a network object contributes,
if any (`1` for the corporate default rule, else its own `vlan`). -/
def netKey (net : NetworkObj) : Option Int :=
  if corpDefault net then some 1 else net.vlan

/-! ## Row processor (step 4 of `main`) -/

/-- One CSV data row, keyed by the four required columns.  Values are the
raw strings `csv.DictReader` yields. -/
structure Row where
  vlan : String
  mac : String
  client_name : String
  ip : String
deriving DecidableEq

/-- The JSON body POSTed to `/rest/user` for one row. -/
structure Payload where
  mac : String
  fixed_ip : String
  name : String
  network_id : String
  use_fixedip : Bool
  note : String
  vlan_enabled : Bool
  vlan : Int
deriving DecidableEq

/-- The payload dictionary literal from the row loop. -/
def mkPayload (mac ip name nid : String) (v : Int) : Payload :=
  ⟨mac, ip, name, nid, true, "Added by unifi.py script", true, v⟩

/-- Mutable state of the row loop: the two counters plus the upsert calls
issued so far (in order). -/
structure RunState where
  success_count : Nat
  error_count : Nat
  calls : List Payload
deriving DecidableEq

/-- Exceptions that escape the row loop: `ValueError` from
`int(row["VLAN"])` and `requests.exceptions.RequestException` from the
POST. -/
inductive AbortKind where
  | vlanParseError
  | requestException
deriving DecidableEq

/-- Python truthiness of `net_id` (an `Optional[str]`): `if not net_id`
treats both `None` and the empty string as falsy. -/
def pyTruthy (o : Option String) : Bool :=
  match o with
  | none => false
  | some s => !s.isEmpty

/-- One iteration of `for row in reader:`.  Returns the new state and, when
an exception escapes the iteration, the abort kind.  The upsert POST is the
environment parameter `post`; an `Except.error` result models a raised
`RequestException`, `Except.ok b` models a response with `resp.ok = b`. -/
def processRow (vm : List (Int × String)) (post : Payload → Except Unit Bool)
    (st : RunState) (row : Row) : RunState × Option AbortKind :=
  match parsePyInt row.vlan with
  | none => (st, some .vlanParseError)
  | some vlan_num =>
    let net_id := mapGet vm vlan_num
    if !pyTruthy net_id then
      ({ st with error_count := st.error_count + 1 }, none)
    else
      let mac := normalizeMac row.mac
      let ip_address := pyStrip row.ip
      if !isValidIP ip_address then
        ({ st with error_count := st.error_count + 1 }, none)
      else
        let payload := mkPayload mac ip_address (pyStrip row.client_name) (net_id.getD "") vlan_num
        let st' := { st with calls := st.calls ++ [payload] }
        match post payload with
        | .error _ => (st', some .requestException)
        | .ok true => ({ st' with success_count := st'.success_count + 1 }, none)
        | .ok false => ({ st' with error_count := st'.error_count + 1 }, none)

/-- The whole row loop: process rows in order, stopping (with the state
reached so far) when an iteration raises. -/
def runRows (vm : List (Int × String)) (post : Payload → Except Unit Bool) :
    RunState → List Row → RunState × Option AbortKind
  | st, [] => (st, none)
  | st, row :: rest =>
    match processRow vm post st row with
    | (st', none) => runRows vm post st' rest
    | (st', some k) => (st', some k)

/-- The required CSV columns, in the order the script lists them. -/
def requiredFields : List String :=
  ["VLAN", "MAC", "Client Name", "IP"]

/-- The header check `all(field in reader.fieldnames for field in [...])`. -/
def headerOk (fieldnames : List String) : Bool :=
  requiredFields.all fun field => fieldnames.contains field

/-- Result of the CSV section of `main` (the inner `try`). -/
inductive CsvOutcome where
  | fileNotFound
  | missingColumns
  | finished (st : RunState) (abort : Option AbortKind)
deriving DecidableEq

/-- The CSV section: open the file (`none` models `FileNotFoundError`),
check the header, run the row loop from zeroed counters. -/
def runCsv (vm : List (Int × String)) (post : Payload → Except Unit Bool)
    (file : Option (List String × List Row)) : CsvOutcome :=
  match file with
  | none => .fileNotFound
  | some (fieldnames, rows) =>
    if !headerOk fieldnames then .missingColumns
    else
      let r := runRows vm post ⟨0, 0, []⟩ rows
      .finished r.1 r.2

/-- Upsert calls issued by the CSV section. -/
def csvCalls : CsvOutcome → List Payload
  | .finished st _ => st.calls
  | _ => []

/-! ## Top-level control flow of `main` -/

/-- Outcomes of the external calls `main` makes, as seen by the script:
each `Except.error` models a raised `requests` exception. `selfResp`
carries the `x-csrf-token` header value, if present. -/
structure Env where
  login : Except Unit Unit
  selfResp : Except Unit (Option String)
  networkconf : Except Unit (List NetworkObj)
  csvFile : Option (List String × List Row)
  post : Payload → Except Unit Bool
  logoutRaises : Bool

/-- The last user-visible thing the `try`/`except` chain of `main` prints
before the `finally` block runs. -/
inductive Outcome where
  | summaryPrinted (success_count error_count : Nat)
  | csvNotFoundMsg
  | missingColumnsMsg
  | networkErrorMsg
  | errorMsg
deriving DecidableEq

/-- Everything observable about one run of `main`. -/
structure Trace where
  outcome : Outcome
  calls : List Payload
  logoutAttempted : Bool
  logoutMsgPrinted : Bool
deriving DecidableEq

/-- The `try` body of `main`: login, CSRF fetch (a missing header raises
`RuntimeError`, caught by `except Exception`), networkconf fetch, resolver
loop, then the CSV section.  Returns the printed outcome and the upsert
calls issued. -/
def tryBody (env : Env) : Outcome × List Payload :=
  match env.login with
  | .error _ => (.networkErrorMsg, [])
  | .ok _ =>
    match env.selfResp with
    | .error _ => (.networkErrorMsg, [])
    | .ok none => (.errorMsg, [])
    | .ok (some _) =>
      match env.networkconf with
      | .error _ => (.networkErrorMsg, [])
      | .ok nets =>
        let vm := (buildVlanMaps nets).vlan_map
        match runCsv vm env.post env.csvFile with
        | .fileNotFound => (.csvNotFoundMsg, [])
        | .missingColumns => (.missingColumnsMsg, [])
        | .finished st none => (.summaryPrinted st.success_count st.error_count, st.calls)
        | .finished st (some .vlanParseError) => (.errorMsg, st.calls)
        | .finished st (some .requestException) => (.networkErrorMsg, st.calls)

/-- `main`: the `try` body, then the unconditional `finally` block, whose
logout POST is attempted on every path and whose own failure is swallowed
by the inner bare `except`. -/
def mainRun (env : Env) : Trace :=
  let r := tryBody env
  { outcome := r.1
    calls := r.2
    logoutAttempted := true
    logoutMsgPrinted := !env.logoutRaises }

/-- Whether the final summary line was printed. -/
def summaryAttempted : Outcome → Bool
  | .summaryPrinted _ _ => true
  | _ => false

/-- The whole process: importing the credentials module fails with
`sys.exit(1)` when `secrets.py` is missing; otherwise `main()` runs and
returns normally, so the process exits 0. -/
def script (secretsPresent : Bool) (env : Env) : Nat × Option Trace :=
  if secretsPresent then (0, some (mainRun env)) else (1, none)

/-! ## Helper lemmas on the string primitives -/

theorem dropWhile_eq_self_of_none {α : Type} (p : α → Bool) (l : List α)
    (h : ∀ c ∈ l, p c = false) : l.dropWhile p = l := by
  cases l with
  | nil => rfl
  | cons a t => simp [List.dropWhile, h a (List.mem_cons_self a t)]

theorem map_eq_self_of_fixed {α : Type} (f : α → α) (l : List α)
    (h : ∀ c ∈ l, f c = c) : l.map f = l := by
  induction l with
  | nil => rfl
  | cons a t ih =>
    rw [List.map_cons, h a (List.mem_cons_self a t),
      ih fun c hc => h c (List.mem_cons_of_mem a hc)]

theorem pyStripList_eq_self {l : List Char} (h : ∀ c ∈ l, isPySpace c = false) :
    pyStripList l = l := by
  unfold pyStripList
  rw [dropWhile_eq_self_of_none _ _ h,
    dropWhile_eq_self_of_none _ _ fun c hc => h c (List.mem_reverse.mp hc),
    List.reverse_reverse]

/-- The characters a normalized MAC address is built from: colon and
uppercase hexadecimal digits. -/
def normMacChars : List Char :=
  [':', '0', '1', '2', '3', '4', '5', '6', '7', '8', '9', 'A', 'B', 'C', 'D', 'E', 'F']

theorem normMacChar_facts : ∀ c ∈ normMacChars,
    Char.toUpper c = c ∧ isPySpace c = false ∧ (c == '-') = false ∧ (c == '.') = false := by
  decide

/-! ## Claim theorems -/

/-- C5: MAC normalization is idempotent — on a string made of colon and
uppercase hex characters (an already colon-separated uppercase MAC) it is
the identity — and the three sample inputs all normalize to
`AA:BB:CC:DD:EE:FF`. -/
theorem mac_normalization_idempotent :
    (∀ s : String, (∀ c ∈ s.data, c ∈ normMacChars) → normalizeMac s = s) ∧
    normalizeMac "aa-bb-cc-dd-ee-ff" = "AA:BB:CC:DD:EE:FF" ∧
    normalizeMac "aa.bb.cc.dd.ee.ff" = "AA:BB:CC:DD:EE:FF" ∧
    normalizeMac "AA:BB:CC:DD:EE:FF" = "AA:BB:CC:DD:EE:FF" := by
  refine ⟨?_, by decide, by decide, by decide⟩
  intro s h
  have e1 : pyStrip s = s := by
    show (⟨pyStripList s.data⟩ : String) = s
    rw [pyStripList_eq_self fun c hc => (normMacChar_facts c (h c hc)).2.1]
  have e2 : replaceChar '-' ':' s = s := by
    show (⟨s.data.map _⟩ : String) = s
    rw [map_eq_self_of_fixed _ _ fun c hc => by
      simp [(normMacChar_facts c (h c hc)).2.2.1]]
  have e3 : replaceChar '.' ':' s = s := by
    show (⟨s.data.map _⟩ : String) = s
    rw [map_eq_self_of_fixed _ _ fun c hc => by
      simp [(normMacChar_facts c (h c hc)).2.2.2]]
  have e4 : pyUpper s = s := by
    show (⟨s.data.map _⟩ : String) = s
    rw [map_eq_self_of_fixed _ _ fun c hc => (normMacChar_facts c (h c hc)).1]
  rw [normalizeMac, e1, e2, e3, e4]

/-- Witness for C5: the conditional part applied to a concrete normalized
MAC. -/
theorem mac_normalization_idempotent_witness :
    normalizeMac "AA:0F:BB:CC:DD:EE" = "AA:0F:BB:CC:DD:EE" :=
  mac_normalization_idempotent.1 "AA:0F:BB:CC:DD:EE" (by decide)

theorem mapGet_cons (k : Int) (s : String) (m : List (Int × String)) (v : Int) :
    mapGet ((k, s) :: m) v = if k = v then some s else mapGet m v := by
  by_cases h : k = v
  · simp [mapGet, List.find?, beq_iff_eq, h]
  · have hb : (k == v) = false := beq_eq_false_iff_ne.mpr h
    simp [mapGet, List.find?, hb, h]

theorem resolveStep_lookup (ms : VlanMaps) (net : NetworkObj) (v : Int) :
    mapGet (resolveStep ms net).vlan_map v =
      (if netKey net = some v then some net._id else mapGet ms.vlan_map v) ∧
    mapGet (resolveStep ms net).subnet_map v =
      (if netKey net = some v then some (net.ip_subnet.getD "") else mapGet ms.subnet_map v) := by
  unfold resolveStep netKey
  by_cases hc : corpDefault net
  · simp [hc, mapGet_cons]
  · cases hvl : net.vlan with
    | none => simp [hc, hvl]
    | some w => by_cases hw : w = v <;> simp [hc, hvl, mapGet_cons, hw]

/-- C1: building the VLAN map processes the controller's network list in
order; a network contributes under key 1 when it is the corporate default
(no `vlan` field or `vlan == 1`), under its own `vlan` number when that
field is present, and nothing otherwise; lookup returns the identifier
(and subnet) of the last contributing network for each VLAN number. -/
theorem vlan_map_build_last_wins (nets : List NetworkObj) (v : Int) :
    mapGet (buildVlanMaps nets).vlan_map v =
      ((nets.filter fun n => netKey n == some v).getLast?).map (fun n => n._id) ∧
    mapGet (buildVlanMaps nets).subnet_map v =
      ((nets.filter fun n => netKey n == some v).getLast?).map
        (fun n => n.ip_subnet.getD "") := by
  induction nets using List.reverseRecOn with
  | nil => exact ⟨rfl, rfl⟩
  | append_singleton l a ih =>
    have hb : buildVlanMaps (l ++ [a]) = resolveStep (buildVlanMaps l) a := by
      simp [buildVlanMaps, List.foldl_append]
    rcases resolveStep_lookup (buildVlanMaps l) a v with ⟨h1, h2⟩
    rw [hb, h1, h2]
    by_cases hk : netKey a = some v
    · simp [List.filter_append, hk, List.getLast?_concat]
    · simp [List.filter_append, hk, ih.1, ih.2]

theorem processRow_step_count (vm : List (Int × String)) (post : Payload → Except Unit Bool)
    (st : RunState) (row : Row) (st' : RunState)
    (h : processRow vm post st row = (st', none)) :
    st'.success_count + st'.error_count = st.success_count + st.error_count + 1 := by
  unfold processRow at h
  cases hp : parsePyInt row.vlan <;> rw [hp] at h
  · simp at h
  · simp only at h
    split at h
    · simp at h
      subst h
      simp
      omega
    · split at h
      · simp at h
        subst h
        simp
        omega
      · split at h
        · simp at h
        · simp at h
          subst h
          simp
          omega
        · simp at h
          subst h
          simp
          omega

theorem runRows_count (vm : List (Int × String)) (post : Payload → Except Unit Bool) :
    ∀ (rows : List Row) (st st' : RunState),
      runRows vm post st rows = (st', none) →
      st'.success_count + st'.error_count =
        st.success_count + st.error_count + rows.length := by
  intro rows
  induction rows with
  | nil =>
    intro st st' h
    unfold runRows at h
    simp at h
    subst h
    simp
  | cons row rest ih =>
    intro st st' h
    unfold runRows at h
    cases hp : processRow vm post st row with
    | mk st1 k =>
      rw [hp] at h
      cases k with
      | none =>
        simp only at h
        have h1 := processRow_step_count vm post st row st1 hp
        have h2 := ih st1 st' h
        simp only [List.length_cons]
        omega
      | some kk => simp at h

/-- C2: a full run of the row loop with no fatal abort yields
`success_count + error_count` equal to the number of data rows in the
CSV. -/
theorem run_summary_counts (vm : List (Int × String)) (post : Payload → Except Unit Bool)
    (rows : List Row) (st : RunState)
    (h : runRows vm post ⟨0, 0, []⟩ rows = (st, none)) :
    st.success_count + st.error_count = rows.length := by
  simpa using runRows_count vm post rows ⟨0, 0, []⟩ st h

/-- Witness for C2: a one-row CSV whose row has an unmapped VLAN; the
counters sum to 1. -/
theorem run_summary_counts_witness :
    (⟨0, 1, []⟩ : RunState).success_count + (⟨0, 1, []⟩ : RunState).error_count =
      [(⟨"99", "aa", "n", "1.2.3.4"⟩ : Row)].length :=
  run_summary_counts [] (fun _ => Except.ok true) [⟨"99", "aa", "n", "1.2.3.4"⟩]
    ⟨0, 1, []⟩ (by decide)

/-- C3: a row whose parsed VLAN number is absent from the VLAN map makes
no upsert call, increments `error_count` by exactly 1, and the loop
continues with the remaining rows. -/
theorem unknown_vlan_skipped (vm : List (Int × String)) (post : Payload → Except Unit Bool)
    (st : RunState) (row : Row) (rest : List Row) (v : Int)
    (hparse : parsePyInt row.vlan = some v) (habsent : mapGet vm v = none) :
    processRow vm post st row = ({ st with error_count := st.error_count + 1 }, none) ∧
    runRows vm post st (row :: rest) =
      runRows vm post { st with error_count := st.error_count + 1 } rest := by
  have h1 : processRow vm post st row =
      ({ st with error_count := st.error_count + 1 }, none) := by
    unfold processRow
    rw [hparse]
    simp [habsent, pyTruthy]
  exact ⟨h1, by simp only [runRows, h1]⟩

/-- Witness for C3: VLAN 99 is absent from a map containing only VLAN 10. -/
theorem unknown_vlan_skipped_witness :
    processRow [(10, "x")] (fun _ => Except.ok true) ⟨0, 0, []⟩ ⟨"99", "aa", "n", "1.2.3.4"⟩ =
      (⟨0, 1, []⟩, none) ∧
    runRows [(10, "x")] (fun _ => Except.ok true) ⟨0, 0, []⟩ [⟨"99", "aa", "n", "1.2.3.4"⟩] =
      runRows [(10, "x")] (fun _ => Except.ok true) ⟨0, 1, []⟩ [] :=
  unknown_vlan_skipped _ _ _ _ _ 99 (by decide) (by decide)

/-- C4: a row whose (trimmed) IP value is not a valid IPv4 or IPv6 literal
makes no upsert call, increments `error_count` by exactly 1, and the loop
continues with the remaining rows. -/
theorem invalid_ip_skipped (vm : List (Int × String)) (post : Payload → Except Unit Bool)
    (st : RunState) (row : Row) (rest : List Row) (v : Int)
    (hparse : parsePyInt row.vlan = some v)
    (hip : isValidIP (pyStrip row.ip) = false) :
    processRow vm post st row = ({ st with error_count := st.error_count + 1 }, none) ∧
    runRows vm post st (row :: rest) =
      runRows vm post { st with error_count := st.error_count + 1 } rest := by
  have h1 : processRow vm post st row =
      ({ st with error_count := st.error_count + 1 }, none) := by
    unfold processRow
    rw [hparse]
    by_cases ht : pyTruthy (mapGet vm v) <;> simp [ht, hip]
  exact ⟨h1, by simp only [runRows, h1]⟩

/-- Witness for C4: `999.999.1.1` on a mapped VLAN is rejected with no
call made. -/
theorem invalid_ip_skipped_witness :
    processRow [(10, "x")] (fun _ => Except.ok true) ⟨0, 0, []⟩ ⟨"10", "aa", "n", "999.999.1.1"⟩ =
      (⟨0, 1, []⟩, none) ∧
    runRows [(10, "x")] (fun _ => Except.ok true) ⟨0, 0, []⟩ [⟨"10", "aa", "n", "999.999.1.1"⟩] =
      runRows [(10, "x")] (fun _ => Except.ok true) ⟨0, 1, []⟩ [] :=
  invalid_ip_skipped _ _ _ _ _ 10 (by decide) (by decide)

/-- C9: a VLAN whose map entry is the empty string (a falsy network
identifier) is treated exactly like an unknown VLAN: no upsert call,
`error_count` up by 1, loop continues. -/
theorem empty_network_id_treated_as_unknown (vm : List (Int × String))
    (post : Payload → Except Unit Bool) (st : RunState) (row : Row) (rest : List Row) (v : Int)
    (hparse : parsePyInt row.vlan = some v) (hempty : mapGet vm v = some "") :
    processRow vm post st row = ({ st with error_count := st.error_count + 1 }, none) ∧
    runRows vm post st (row :: rest) =
      runRows vm post { st with error_count := st.error_count + 1 } rest := by
  have h1 : processRow vm post st row =
      ({ st with error_count := st.error_count + 1 }, none) := by
    unfold processRow
    rw [hparse]
    simp [hempty, pyTruthy, String.isEmpty]
  exact ⟨h1, by simp only [runRows, h1]⟩

/-- Witness for C9: VLAN 5 is present but mapped to the empty identifier. -/
theorem empty_network_id_treated_as_unknown_witness :
    processRow [(5, "")] (fun _ => Except.ok true) ⟨0, 0, []⟩ ⟨"5", "aa", "n", "1.2.3.4"⟩ =
      (⟨0, 1, []⟩, none) ∧
    runRows [(5, "")] (fun _ => Except.ok true) ⟨0, 0, []⟩ [⟨"5", "aa", "n", "1.2.3.4"⟩] =
      runRows [(5, "")] (fun _ => Except.ok true) ⟨0, 1, []⟩ [] :=
  empty_network_id_treated_as_unknown _ _ _ _ _ 5 (by decide) (by decide)

/-- C10: the IP field is whitespace-trimmed before validation and before
entering the payload: a row whose trimmed IP is valid always issues the
upsert with `fixed_ip` equal to the trimmed address. -/
theorem ip_trimmed_before_validation_and_payload (vm : List (Int × String))
    (post : Payload → Except Unit Bool) (st : RunState) (row : Row) (v : Int) (nid : String)
    (hparse : parsePyInt row.vlan = some v)
    (hfound : mapGet vm v = some nid) (hne : nid ≠ "")
    (hip : isValidIP (pyStrip row.ip) = true) :
    (processRow vm post st row).1.calls =
      st.calls ++
        [mkPayload (normalizeMac row.mac) (pyStrip row.ip) (pyStrip row.client_name) nid v] ∧
    (mkPayload (normalizeMac row.mac) (pyStrip row.ip) (pyStrip row.client_name) nid v).fixed_ip =
      pyStrip row.ip := by
  refine ⟨?_, rfl⟩
  have hemp : nid.isEmpty = false := by
    cases he : nid.isEmpty
    · rfl
    · exact absurd (nid.isEmpty_iff.mp he) hne
  have ht : pyTruthy (some nid) = true := by
    simp [pyTruthy, hemp]
  unfold processRow
  rw [hparse]
  simp only [hfound, ht, Option.getD_some, Bool.not_true, Bool.false_eq_true, if_false, hip,
    ite_false, ite_true]
  cases hpost : post (mkPayload (normalizeMac row.mac) (pyStrip row.ip)
      (pyStrip row.client_name) nid v) with
  | error e => simp [hpost]
  | ok b => cases b <;> simp [hpost]

/-- Witness for C10: an IP with surrounding whitespace is accepted and the
payload carries the trimmed address. -/
theorem ip_trimmed_before_validation_and_payload_witness :
    (processRow [(10, "x")] (fun _ => Except.ok true) ⟨0, 0, []⟩
        ⟨"10", "aa", " n ", "  10.0.0.5 "⟩).1.calls =
      [] ++ [mkPayload "AA" "10.0.0.5" "n" "x" 10] ∧
    (mkPayload "AA" "10.0.0.5" "n" "x" 10).fixed_ip = "10.0.0.5" := by
  have h := ip_trimmed_before_validation_and_payload [(10, "x")] (fun _ => Except.ok true)
    ⟨0, 0, []⟩ ⟨"10", "aa", " n ", "  10.0.0.5 "⟩ 10 "x" (by decide) (by decide)
    (by decide) (by decide)
  simpa using h

/-- C6: when the CSV header lacks a required column, the run aborts before
any data row is processed and zero upsert calls are made. -/
theorem missing_columns_aborts (vm : List (Int × String)) (post : Payload → Except Unit Bool)
    (fieldnames : List String) (rows : List Row)
    (h : headerOk fieldnames = false) :
    runCsv vm post (some (fieldnames, rows)) = .missingColumns ∧
    csvCalls (runCsv vm post (some (fieldnames, rows))) = [] ∧
    runCsv vm post (some (fieldnames, rows)) = runCsv vm post (some (fieldnames, [])) := by
  unfold runCsv
  simp [h, csvCalls]

/-- Witness for C6: a header lacking the `IP` column. -/
theorem missing_columns_aborts_witness :
    runCsv [] (fun _ => Except.ok true)
        (some (["VLAN", "MAC", "Client Name"], [⟨"1", "aa", "n", "1.2.3.4"⟩])) =
      .missingColumns ∧
    csvCalls (runCsv [] (fun _ => Except.ok true)
        (some (["VLAN", "MAC", "Client Name"], [⟨"1", "aa", "n", "1.2.3.4"⟩]))) = [] ∧
    runCsv [] (fun _ => Except.ok true)
        (some (["VLAN", "MAC", "Client Name"], [⟨"1", "aa", "n", "1.2.3.4"⟩])) =
      runCsv [] (fun _ => Except.ok true) (some (["VLAN", "MAC", "Client Name"], [])) :=
  missing_columns_aborts _ _ _ _ (by decide)

/-- A concrete environment whose login call raises, aborting the run
before the CSV section. -/
def envLoginFail : Env :=
  { login := .error (), selfResp := .ok none, networkconf := .ok []
    csvFile := none, post := fun _ => .ok true, logoutRaises := false }

/-- C7 counterexample: on the aborted run `envLoginFail` the final summary
line is never printed, even though logout is still attempted — refuting
the claim that every execution path attempts to print the final summary. -/
theorem summary_not_attempted_on_abort :
    summaryAttempted (mainRun envLoginFail).outcome = false ∧
    (mainRun envLoginFail).logoutAttempted = true := by
  decide

/-- C7 amended: every execution path attempts the logout, and a failure of
the logout itself is swallowed — it changes neither the printed outcome
nor the upsert calls; the final summary is printed only on paths where the
row loop completes. -/
theorem logout_always_attempted_and_swallowed (env : Env) :
    (mainRun env).logoutAttempted = true ∧
    (mainRun { env with logoutRaises := true }).outcome =
      (mainRun { env with logoutRaises := false }).outcome ∧
    (mainRun { env with logoutRaises := true }).calls =
      (mainRun { env with logoutRaises := false }).calls := by
  exact ⟨rfl, rfl, rfl⟩

/-- C8: the process exits nonzero exactly when the credentials module is
missing; with credentials present, `main` absorbs every failure and the
process exits 0, whatever the controller, CSV, and network do. -/
theorem exit_nonzero_iff_secrets_missing (secretsPresent : Bool) (env : Env) :
    ((script secretsPresent env).1 ≠ 0 ↔ secretsPresent = false) ∧
    (script true env).1 = 0 ∧ (script false env).1 = 1 := by
  cases secretsPresent <;> simp [script]

end Unifi
